import Mathlib

/-!
Verification of the livekit latency-probe repository.

The embedding follows the two Rust crates:
* `src/client/src/lib.rs` — the Receiver: `measure_latency` (frame loop,
  sentinel detection, trigger scheduling, ledger of `LatencyEntry`) and
  `write_latency_to_csv` (report writer).
* `src/screen_sharer/src/lib.rs` — the Emitter: the capture callback's
  watermark block and `handle_room_events` (trigger handling).

Machine floats (`f32`/`f64`) carried opaquely through the code are embedded
as `ℚ`; `u128`/integer counters as `Nat`.  Fallible operations (the
out-of-bounds panic of the sentinel scan) return `Option`.
-/

set_option maxRecDepth 100000

namespace LivekitProbe

/-- Embeds `LatencyStats` (src/client/src/lib.rs, lines 44-55).  All fields
are `f64` in the source, carried as `ℚ` here. -/
structure LatencyStats where
  processing_delay : ℚ
  jitter_buffer_delay : ℚ
  jitter_buffer_target_delay : ℚ
  jitter_buffer_minimum_delay : ℚ
  frames_per_second : ℚ
  total_frames : ℚ
  freeze_count : ℚ
  total_bytes : ℚ
  dropped_frames : ℚ
  deriving DecidableEq

/-- Embeds `LatencyEntry` (src/client/src/lib.rs, lines 9-16).
`timestamp` and `receive_timestamp` are `u128` milliseconds in the source;
`receive_timestamp = 0` marks a pending (unmatched) entry.
`cpu_usage` is `f32`, carried as `ℚ`. -/
structure LatencyEntry where
  id : Nat
  timestamp : Nat
  receive_timestamp : Nat
  rtc_stats : Option LatencyStats
  cpu_usage : ℚ
  deriving DecidableEq

/-- An inbound decoded frame as seen by `measure_latency`: the luma plane of
the i420 buffer (`buffer.data().0`), one `Nat` per byte sample. -/
structure InFrame where
  dataY : List Nat
  deriving DecidableEq

/-- The ambient inputs consumed during one iteration of the
`measure_latency` loop: the wall-clock reads and the results of the external
queries (`get_rtc_stats`, `system.process(pid)`).  Modelling them as
per-iteration inputs keeps the loop body a pure function. -/
structure StepEnv where
  /-- Clock read `SystemTime::now()` at the top of the loop (ms since epoch);
  becomes the `receive_timestamp` on a match. -/
  now_ms : Nat
  /-- Clock read `SystemTime::now()` at entry creation time (ms since epoch);
  becomes the new entry's `timestamp` when a trigger is sent. -/
  trig_now_ms : Nat
  /-- Wall clock in whole seconds, used for `start_time.elapsed().as_secs()`
  and for the `start_time = SystemTime::now()` reset on a match. -/
  now_secs : Nat
  /-- Result of `get_rtc_stats(&room)`. -/
  rtcStats : LatencyStats
  /-- Result of `system.process(Pid::from(pid))` after the refresh:
  `some cpu` when the process is found, `none` otherwise. -/
  cpuLookup : Option ℚ
  deriving DecidableEq

/-- The mutable locals of `measure_latency` (src/client/src/lib.rs,
lines 146-157), plus two event counters (`triggers_sent` for
`publish_data` calls, `warnings` for `log::warn` calls) recording the
observable side effects. -/
structure MeasureState where
  latency_results : List LatencyEntry
  frames : Nat
  next_frame_request : Nat
  start_time : Nat
  last_frame_for_fps : Nat
  triggers_sent : Nat
  warnings : Nat
  deriving DecidableEq

/-- Constant `frames_offset` (line 153): ticks are sent every 150 frames. -/
def frames_offset : Nat := 150

/-- Constant `min_watermark_count` (line 182): detection threshold. -/
def min_watermark_count : Nat := 100

/-- Constant `start_sampling_frame` (line 184): warm-up; sampling starts strictly
after this many frames. -/
def start_sampling_frame : Nat := 500

/-- The sentinel byte `0xa` written and scanned for. -/
def watermark_byte : Nat := 0xa

/-- The sentinel scan (src/client/src/lib.rs, lines 174-179): counts how
many of the first 200 luma samples equal `0xa`.  The loop indexes
`data_y[i]` for `i in 0..200` with no bounds guard, so a luma plane shorter
than 200 samples panics; `none` embeds that panic. -/
def countWatermark (dataY : List Nat) : Option Nat :=
  if 200 ≤ dataY.length then
    some (((dataY.take 200).filter (fun b => b == watermark_byte)).length)
  else
    none

/-- The match block (src/client/src/lib.rs, lines 186-216): mutate the last
ledger entry via `last_mut` if it is still pending — set its
`receive_timestamp`, store the stats snapshot with `frames_per_second`
overwritten by the locally computed rate, take the CPU sample (leaving
`cpu_usage` untouched and warning when the pid lookup fails), then reset the
local rate counters. -/
def apply_match (st : MeasureState) (e : StepEnv) : MeasureState :=
  match st.latency_results.getLast? with
  | none => st
  | some ent =>
    if ent.receive_timestamp = 0 then
      let elapsed : Nat := e.now_secs - st.start_time
      let local_fps : ℚ := ((st.frames - st.last_frame_for_fps : Nat) : ℚ) / (elapsed : ℚ)
      let stats : LatencyStats := { e.rtcStats with frames_per_second := local_fps }
      let cpu : ℚ := match e.cpuLookup with
        | some c => c
        | none => ent.cpu_usage
      let warn : Nat := match e.cpuLookup with
        | some _ => 0
        | none => 1
      let ent' : LatencyEntry :=
        { ent with
            receive_timestamp := e.now_ms
            rtc_stats := some stats
            cpu_usage := cpu }
      { st with
          latency_results := st.latency_results.dropLast ++ [ent']
          start_time := e.now_secs
          last_frame_for_fps := st.frames
          warnings := st.warnings + warn }
    else st

/-- The trigger block (src/client/src/lib.rs, lines 220-243): advance
`next_frame_request`, publish the `"watermark"` data packet, and append a
fresh pending entry whose `id` is the advanced `next_frame_request`
divided by `frames_offset`. -/
def send_trigger (st : MeasureState) (e : StepEnv) : MeasureState :=
  let nfr : Nat := st.next_frame_request + frames_offset
  { st with
      next_frame_request := nfr
      triggers_sent := st.triggers_sent + 1
      latency_results := st.latency_results ++
        [{ id := nfr / frames_offset
           timestamp := e.trig_now_ms
           receive_timestamp := 0
           rtc_stats := none
           cpu_usage := 0 }] }

/-- The guarded match block (src/client/src/lib.rs, line 185): the match
runs only when the sentinel count reaches the threshold and the warm-up has
passed. -/
def match_stage (st : MeasureState) (e : StepEnv) (wc : Nat) : MeasureState :=
  if min_watermark_count ≤ wc ∧ start_sampling_frame < st.frames then
    apply_match st e
  else st

/-- The guarded trigger block (src/client/src/lib.rs, line 220): the trigger
runs only when the frame counter reaches the next tick. -/
def trigger_stage (st : MeasureState) (e : StepEnv) : MeasureState :=
  if st.frames = st.next_frame_request then send_trigger st e else st

/-- The body of one `measure_latency` iteration after a successful sentinel
scan yielding `wc`: match block, then trigger block, then `frames += 1`. -/
def step_core (st : MeasureState) (e : StepEnv) (wc : Nat) : MeasureState :=
  let st2 := trigger_stage (match_stage st e wc) e
  { st2 with frames := st2.frames + 1 }

/-- One iteration of the `measure_latency` while-loop
(src/client/src/lib.rs, lines 160-245): scan the frame (`none` propagates
the scan's panic) and run the rest of the body on the count. -/
def measure_latency_step (st : MeasureState) (f : InFrame) (e : StepEnv) :
    Option MeasureState :=
  (countWatermark f.dataY).map (step_core st e)

/-- The initial state of `measure_latency` (src/client/src/lib.rs,
lines 146-157); `t0` is the initial `start_time` clock read in seconds. -/
def measure_latency_init (t0 : Nat) : MeasureState :=
  { latency_results := []
    frames := 0
    next_frame_request := 0
    start_time := t0
    last_frame_for_fps := 0
    triggers_sent := 0
    warnings := 0 }

/-- Folding loop iterations over a list of inputs from an arbitrary
accumulated state (`none` = a previous iteration panicked). -/
def measure_fold (acc : Option MeasureState) (inputs : List (InFrame × StepEnv)) :
    Option MeasureState :=
  inputs.foldl (fun a p => a.bind fun st => measure_latency_step st p.1 p.2) acc

/-- The whole `measure_latency` loop over a finite inbound stream: each
element pairs the decoded frame with that iteration's ambient inputs.
`none` means some iteration panicked. -/
def measure_latency_run (t0 : Nat) (inputs : List (InFrame × StepEnv)) :
    Option MeasureState :=
  measure_fold (some (measure_latency_init t0)) inputs

/-- A state the Receiver loop can actually be in at some session end. -/
def Reachable (st : MeasureState) : Prop :=
  ∃ t0 inputs, measure_latency_run t0 inputs = some st

/-- One data row of the report (src/client/src/lib.rs, lines 284-299), in
the fixed column order of the header. -/
structure CsvRow where
  id : Nat
  latency : Nat
  processing_delay : ℚ
  jitter_buffer_delay : ℚ
  jitter_buffer_target_delay : ℚ
  jitter_buffer_minimum_delay : ℚ
  frames_per_second : ℚ
  freeze_count : ℚ
  total_bytes : ℚ
  dropped_frames : ℚ
  duration : ℚ
  cpu_usage : ℚ
  deriving DecidableEq

/-- The row the `writeln!` in the loop body emits for one matched entry
(src/client/src/lib.rs, lines 284-299): `latency` is
`receive_timestamp - timestamp`. -/
def entry_row (ent : LatencyEntry) (stats : LatencyStats) (duration : ℚ) :
    CsvRow :=
  { id := ent.id
    latency := ent.receive_timestamp - ent.timestamp
    processing_delay := stats.processing_delay
    jitter_buffer_delay := stats.jitter_buffer_delay
    jitter_buffer_target_delay := stats.jitter_buffer_target_delay
    jitter_buffer_minimum_delay := stats.jitter_buffer_minimum_delay
    frames_per_second := stats.frames_per_second
    freeze_count := stats.freeze_count
    total_bytes := stats.total_bytes
    dropped_frames := stats.dropped_frames
    duration := duration
    cpu_usage := ent.cpu_usage }

/-- The body of the report-writing loop for one entry: the `continue` for
unmatched or stats-less entries becomes `none`. -/
def row_of (duration : ℚ) (ent : LatencyEntry) : Option CsvRow :=
  if ent.receive_timestamp = 0 then none
  else
    match ent.rtc_stats with
    | none => none
    | some stats => some (entry_row ent stats duration)

/-- Embeds `write_latency_to_csv` (src/client/src/lib.rs, lines 269-302) as
the list of data rows it writes after the header: entries with
`receive_timestamp == 0` or `rtc_stats.is_none()` are skipped, each other
entry yields one row with `latency = receive_timestamp - timestamp`. -/
def write_latency_to_csv (latency : List LatencyEntry) (duration : ℚ) :
    List CsvRow :=
  latency.filterMap (row_of duration)

/-! Emitter embedding: src/screen_sharer/src/lib.rs. -/

/-- A room event as consumed by `handle_room_events`: either a data packet
with its payload (decoded to text, as by `String::from_utf8_lossy`) or any
other event, which the loop ignores. -/
inductive RoomEvent where
  | dataReceived (payload : String)
  | otherEvent
  deriving DecidableEq

/-- One iteration of the event loop in `handle_room_events`
(src/screen_sharer/src/lib.rs, lines 342-361): a data packet whose payload
reads `"watermark"` sets the shared watermark count to `15`; every other
event leaves it unchanged. -/
def handle_room_event (count : Nat) (ev : RoomEvent) : Nat :=
  match ev with
  | RoomEvent.dataReceived payload =>
    if payload = "watermark" then 15 else count
  | RoomEvent.otherEvent => count

/-- Embeds `std::ptr::write_bytes(dst, v, n)` on a byte buffer viewed as a list:
overwrite the first `n` entries with `v`, leave the rest. -/
def write_bytes (l : List Nat) (v : Nat) (n : Nat) : List Nat :=
  (l.take n).map (fun _ => v) ++ l.drop n

/-- The number of luma rows the watermark block overwrites
(src/screen_sharer/src/lib.rs, line 144: `50 * s_y` bytes). -/
def marked_rows : Nat := 50

/-- The watermark block of the capture callback
(src/screen_sharer/src/lib.rs, lines 138-147), acting on the stream buffer
after the scaled copy: when the shared count is positive, decrement it and
overwrite the first `50 * s_y` bytes of the luma plane with `0xa`; when it
is zero, the frame passes through untouched.  `sY` is the luma stride of
the stream buffer, `yPlane`/`uvPlane` its two planes. -/
def capture_mark_frame (count : Nat) (sY : Nat) (yPlane uvPlane : List Nat) :
    Nat × List Nat × List Nat :=
  if 0 < count then
    (count - 1, write_bytes yPlane watermark_byte (marked_rows * sY), uvPlane)
  else
    (count, yPlane, uvPlane)

/-! Concrete sample inputs used to exercise the embedding. -/

/-- A luma plane of 200 samples none of which is the sentinel. -/
def plainY : List Nat := List.replicate 200 0

/-- A luma plane whose first 200 samples all carry the sentinel, as produced
by the Emitter for a stream whose luma prefix is fully inside the marked
region. -/
def markedY : List Nat := List.replicate 200 watermark_byte

/-- An all-zero stats snapshot (the `get_rtc_stats` default). -/
def zeroStats : LatencyStats :=
  { processing_delay := 0
    jitter_buffer_delay := 0
    jitter_buffer_target_delay := 0
    jitter_buffer_minimum_delay := 0
    frames_per_second := 0
    total_frames := 0
    freeze_count := 0
    total_bytes := 0
    dropped_frames := 0 }

/-- A simple ambient environment for iteration `k`: the millisecond clock
reads `k + 1`, the second clock reads `k`, stats are all zero and the pid
lookup succeeds with a zero CPU reading. -/
def mkEnv (k : Nat) : StepEnv :=
  { now_ms := k + 1
    trig_now_ms := k + 1
    now_secs := k
    rtcStats := zeroStats
    cpuLookup := some 0 }

/-! Basic lemmas about the loop embedding. -/

theorem measure_fold_append (acc : Option MeasureState)
    (l1 l2 : List (InFrame × StepEnv)) :
    measure_fold acc (l1 ++ l2) = measure_fold (measure_fold acc l1) l2 :=
  List.foldl_append _ _ _ _

theorem measure_fold_pres (P : MeasureState → Prop)
    (hstep : ∀ st f e st', P st → measure_latency_step st f e = some st' → P st') :
    ∀ (inputs : List (InFrame × StepEnv)) (acc : Option MeasureState)
      (st : MeasureState), (∀ s, acc = some s → P s) →
      measure_fold acc inputs = some st → P st := by
  intro inputs
  induction inputs with
  | nil =>
    intro acc st hacc h
    exact hacc st h
  | cons p rest ih =>
    intro acc st hacc h
    refine ih _ st ?_ h
    intro s hs
    cases acc with
    | none => simp [Option.bind] at hs
    | some s0 => exact hstep s0 p.1 p.2 s (hacc s0 rfl) hs

theorem reachable_pres (P : MeasureState → Prop)
    (hinit : ∀ t0, P (measure_latency_init t0))
    (hstep : ∀ st f e st', P st → measure_latency_step st f e = some st' → P st')
    (st : MeasureState) (hr : Reachable st) : P st := by
  obtain ⟨t0, inputs, hrun⟩ := hr
  refine measure_fold_pres P hstep inputs _ st ?_ hrun
  intro s hs
  injection hs with hs
  exact hs ▸ hinit t0

theorem step_some_iff (st : MeasureState) (f : InFrame) (e : StepEnv)
    (st' : MeasureState) :
    measure_latency_step st f e = some st' ↔
      ∃ wc, countWatermark f.dataY = some wc ∧ step_core st e wc = st' := by
  simp [measure_latency_step, Option.map_eq_some']

/-! Field-preservation lemmas for the two loop blocks. -/

theorem apply_match_frames (st : MeasureState) (e : StepEnv) :
    (apply_match st e).frames = st.frames := by
  unfold apply_match
  cases st.latency_results.getLast? with
  | none => rfl
  | some ent =>
    by_cases h : ent.receive_timestamp = 0 <;> simp [h]

theorem apply_match_next (st : MeasureState) (e : StepEnv) :
    (apply_match st e).next_frame_request = st.next_frame_request := by
  unfold apply_match
  cases st.latency_results.getLast? with
  | none => rfl
  | some ent =>
    by_cases h : ent.receive_timestamp = 0 <;> simp [h]

theorem apply_match_triggers (st : MeasureState) (e : StepEnv) :
    (apply_match st e).triggers_sent = st.triggers_sent := by
  unfold apply_match
  cases st.latency_results.getLast? with
  | none => rfl
  | some ent =>
    by_cases h : ent.receive_timestamp = 0 <;> simp [h]

theorem apply_match_length (st : MeasureState) (e : StepEnv) :
    (apply_match st e).latency_results.length = st.latency_results.length := by
  unfold apply_match
  cases hl : st.latency_results.getLast? with
  | none => rfl
  | some ent =>
    by_cases h : ent.receive_timestamp = 0
    · have hne : st.latency_results ≠ [] := by
        intro h0
        rw [h0] at hl
        simp at hl
      have hpos : 0 < st.latency_results.length := List.length_pos.mpr hne
      simp [h, List.length_dropLast]
      omega
    · simp [h]

theorem send_trigger_frames (st : MeasureState) (e : StepEnv) :
    (send_trigger st e).frames = st.frames := rfl

theorem send_trigger_next (st : MeasureState) (e : StepEnv) :
    (send_trigger st e).next_frame_request = st.next_frame_request + frames_offset :=
  rfl

theorem send_trigger_triggers (st : MeasureState) (e : StepEnv) :
    (send_trigger st e).triggers_sent = st.triggers_sent + 1 := rfl

theorem send_trigger_results (st : MeasureState) (e : StepEnv) :
    (send_trigger st e).latency_results = st.latency_results ++
      [{ id := (st.next_frame_request + frames_offset) / frames_offset
         timestamp := e.trig_now_ms
         receive_timestamp := 0
         rtc_stats := none
         cpu_usage := 0 }] := rfl

theorem getElem?_dropLast_concat {α : Type} (l : List α) (a : α) (i : Nat)
    (hi : i + 1 < l.length) : (l.dropLast ++ [a])[i]? = l[i]? := by
  rw [List.getElem?_append]
  rw [List.length_dropLast]
  rw [if_pos (by omega)]
  rw [List.dropLast_eq_take, List.getElem?_take, if_pos (by omega)]

theorem apply_match_getElem?_of_lt (st : MeasureState) (e : StepEnv) (i : Nat)
    (hi : i + 1 < st.latency_results.length) :
    (apply_match st e).latency_results[i]? = st.latency_results[i]? := by
  unfold apply_match
  cases hl : st.latency_results.getLast? with
  | none => rfl
  | some ent =>
    by_cases h : ent.receive_timestamp = 0
    · simp only [h, if_true]
      exact getElem?_dropLast_concat _ _ _ hi
    · simp [h]

theorem apply_match_getElem?_matched (st : MeasureState) (e : StepEnv) (i : Nat)
    (ent : LatencyEntry) (hent : st.latency_results[i]? = some ent)
    (hrt : ent.receive_timestamp ≠ 0) :
    (apply_match st e).latency_results[i]? = some ent := by
  have hlen : i < st.latency_results.length := by
    by_contra hc
    rw [List.getElem?_eq_none (by omega)] at hent
    exact Option.noConfusion hent
  by_cases hlast : i + 1 < st.latency_results.length
  · rw [apply_match_getElem?_of_lt st e i hlast]
    exact hent
  · have hi : i = st.latency_results.length - 1 := by omega
    have hget : st.latency_results.getLast? = some ent := by
      rw [List.getLast?_eq_getElem?, ← hi]
      exact hent
    unfold apply_match
    rw [hget]
    simp [hrt, hent]

theorem send_trigger_getElem?_of_lt (st : MeasureState) (e : StepEnv) (i : Nat)
    (hi : i < st.latency_results.length) :
    (send_trigger st e).latency_results[i]? = st.latency_results[i]? := by
  rw [send_trigger_results, List.getElem?_append, if_pos hi]

/-- The entry a match writes back through `last_mut`: `receive_timestamp`
set to the loop-top clock, the stats snapshot with `frames_per_second`
replaced by the locally computed rate, and the CPU reading when the pid
lookup succeeded. -/
def matched_entry (st : MeasureState) (e : StepEnv) (ent : LatencyEntry) :
    LatencyEntry :=
  { ent with
      receive_timestamp := e.now_ms
      rtc_stats := some { e.rtcStats with frames_per_second :=
        ((st.frames - st.last_frame_for_fps : Nat) : ℚ) /
          ((e.now_secs - st.start_time : Nat) : ℚ) }
      cpu_usage := match e.cpuLookup with
        | some c => c
        | none => ent.cpu_usage }

theorem apply_match_of_empty (st : MeasureState) (e : StepEnv)
    (hl : st.latency_results.getLast? = none) : apply_match st e = st := by
  unfold apply_match
  simp only [hl]

theorem apply_match_of_matched (st : MeasureState) (e : StepEnv)
    (ent : LatencyEntry) (hl : st.latency_results.getLast? = some ent)
    (hrt : ent.receive_timestamp ≠ 0) : apply_match st e = st := by
  unfold apply_match
  simp only [hl]
  rw [if_neg hrt]

theorem apply_match_of_pending (st : MeasureState) (e : StepEnv)
    (ent : LatencyEntry) (hl : st.latency_results.getLast? = some ent)
    (hrt : ent.receive_timestamp = 0) :
    apply_match st e =
      { st with
          latency_results := st.latency_results.dropLast ++ [matched_entry st e ent]
          start_time := e.now_secs
          last_frame_for_fps := st.frames
          warnings := st.warnings + (match e.cpuLookup with
            | some _ => 0
            | none => 1) } := by
  unfold apply_match
  simp only [hl]
  rw [if_pos hrt]
  rfl

theorem apply_match_getElem?_last (st : MeasureState) (e : StepEnv)
    (ent : LatencyEntry) (hl : st.latency_results.getLast? = some ent)
    (hrt : ent.receive_timestamp = 0) :
    (apply_match st e).latency_results[st.latency_results.length - 1]? =
      some (matched_entry st e ent) := by
  rw [apply_match_of_pending st e ent hl hrt]
  have hdl : st.latency_results.dropLast.length = st.latency_results.length - 1 :=
    List.length_dropLast _
  calc (st.latency_results.dropLast ++
          [matched_entry st e ent])[st.latency_results.length - 1]?
      = (st.latency_results.dropLast ++
          [matched_entry st e ent])[st.latency_results.dropLast.length]? := by
        rw [hdl]
    _ = some (matched_entry st e ent) := List.getElem?_concat_length _ _

/-! Stage-level field lemmas. -/

theorem match_stage_frames (st : MeasureState) (e : StepEnv) (wc : Nat) :
    (match_stage st e wc).frames = st.frames := by
  unfold match_stage
  split
  · exact apply_match_frames st e
  · rfl

theorem match_stage_next (st : MeasureState) (e : StepEnv) (wc : Nat) :
    (match_stage st e wc).next_frame_request = st.next_frame_request := by
  unfold match_stage
  split
  · exact apply_match_next st e
  · rfl

theorem match_stage_triggers (st : MeasureState) (e : StepEnv) (wc : Nat) :
    (match_stage st e wc).triggers_sent = st.triggers_sent := by
  unfold match_stage
  split
  · exact apply_match_triggers st e
  · rfl

theorem match_stage_length (st : MeasureState) (e : StepEnv) (wc : Nat) :
    (match_stage st e wc).latency_results.length = st.latency_results.length := by
  unfold match_stage
  split
  · exact apply_match_length st e
  · rfl

theorem step_core_frames (st : MeasureState) (e : StepEnv) (wc : Nat) :
    (step_core st e wc).frames = st.frames + 1 := by
  show (trigger_stage (match_stage st e wc) e).frames + 1 = st.frames + 1
  unfold trigger_stage
  split
  · rw [send_trigger_frames, match_stage_frames]
  · rw [match_stage_frames]

theorem step_core_of_tick (st : MeasureState) (e : StepEnv) (wc : Nat)
    (htick : st.frames = st.next_frame_request) :
    step_core st e wc =
      { send_trigger (match_stage st e wc) e with
          frames := (send_trigger (match_stage st e wc) e).frames + 1 } := by
  unfold step_core trigger_stage
  rw [if_pos (by rw [match_stage_frames, match_stage_next]; exact htick)]

theorem step_core_of_no_tick (st : MeasureState) (e : StepEnv) (wc : Nat)
    (htick : st.frames ≠ st.next_frame_request) :
    step_core st e wc =
      { match_stage st e wc with frames := (match_stage st e wc).frames + 1 } := by
  unfold step_core trigger_stage
  rw [if_neg (by rw [match_stage_frames, match_stage_next]; exact htick)]

theorem match_stage_of_hit (st : MeasureState) (e : StepEnv) (wc : Nat)
    (hthr : min_watermark_count ≤ wc) (hwarm : start_sampling_frame < st.frames) :
    match_stage st e wc = apply_match st e := by
  unfold match_stage
  rw [if_pos ⟨hthr, hwarm⟩]

theorem match_stage_of_warmup (st : MeasureState) (e : StepEnv) (wc : Nat)
    (hwarm : st.frames ≤ start_sampling_frame) :
    match_stage st e wc = st := by
  unfold match_stage
  rw [if_neg (by omega)]

/-- The pending entry a trigger at state `st` appends. -/
def trigger_entry (st : MeasureState) (e : StepEnv) : LatencyEntry :=
  { id := (st.next_frame_request + frames_offset) / frames_offset
    timestamp := e.trig_now_ms
    receive_timestamp := 0
    rtc_stats := none
    cpu_usage := 0 }

theorem step_core_next_of_tick (st : MeasureState) (e : StepEnv) (wc : Nat)
    (htick : st.frames = st.next_frame_request) :
    (step_core st e wc).next_frame_request =
      st.next_frame_request + frames_offset := by
  rw [step_core_of_tick st e wc htick]
  show (send_trigger (match_stage st e wc) e).next_frame_request = _
  rw [send_trigger_next, match_stage_next]

theorem step_core_next_of_no_tick (st : MeasureState) (e : StepEnv) (wc : Nat)
    (htick : st.frames ≠ st.next_frame_request) :
    (step_core st e wc).next_frame_request = st.next_frame_request := by
  rw [step_core_of_no_tick st e wc htick]
  show (match_stage st e wc).next_frame_request = _
  rw [match_stage_next]

theorem step_core_triggers_of_tick (st : MeasureState) (e : StepEnv) (wc : Nat)
    (htick : st.frames = st.next_frame_request) :
    (step_core st e wc).triggers_sent = st.triggers_sent + 1 := by
  rw [step_core_of_tick st e wc htick]
  show (send_trigger (match_stage st e wc) e).triggers_sent = _
  rw [send_trigger_triggers, match_stage_triggers]

theorem step_core_triggers_of_no_tick (st : MeasureState) (e : StepEnv) (wc : Nat)
    (htick : st.frames ≠ st.next_frame_request) :
    (step_core st e wc).triggers_sent = st.triggers_sent := by
  rw [step_core_of_no_tick st e wc htick]
  show (match_stage st e wc).triggers_sent = _
  rw [match_stage_triggers]

theorem step_core_results_of_tick (st : MeasureState) (e : StepEnv) (wc : Nat)
    (htick : st.frames = st.next_frame_request) :
    (step_core st e wc).latency_results =
      (match_stage st e wc).latency_results ++ [trigger_entry st e] := by
  rw [step_core_of_tick st e wc htick]
  show (send_trigger (match_stage st e wc) e).latency_results = _
  rw [send_trigger_results, match_stage_next]
  rfl

theorem step_core_results_of_no_tick (st : MeasureState) (e : StepEnv) (wc : Nat)
    (htick : st.frames ≠ st.next_frame_request) :
    (step_core st e wc).latency_results = (match_stage st e wc).latency_results := by
  rw [step_core_of_no_tick st e wc htick]

theorem step_core_length_of_tick (st : MeasureState) (e : StepEnv) (wc : Nat)
    (htick : st.frames = st.next_frame_request) :
    (step_core st e wc).latency_results.length = st.latency_results.length + 1 := by
  rw [step_core_results_of_tick st e wc htick, List.length_append,
    match_stage_length]
  rfl

theorem step_core_getLast?_of_tick (st : MeasureState) (e : StepEnv) (wc : Nat)
    (htick : st.frames = st.next_frame_request) :
    (step_core st e wc).latency_results.getLast? = some (trigger_entry st e) := by
  rw [step_core_results_of_tick st e wc htick, List.getLast?_concat]

/-! Invariants of reachable Receiver states. -/

/-- Scheduling invariant: the frame counter never passes the next tick, the
next tick is never more than one cadence ahead, and it is always a multiple
of the cadence. -/
def TickInv (st : MeasureState) : Prop :=
  st.frames ≤ st.next_frame_request ∧
  st.next_frame_request < st.frames + frames_offset ∧
  frames_offset ∣ st.next_frame_request

theorem reachable_tickInv (st : MeasureState) (hr : Reachable st) : TickInv st := by
  refine reachable_pres TickInv ?_ ?_ st hr
  · intro t0
    refine ⟨Nat.le_refl 0, ?_, ⟨0, rfl⟩⟩
    show (0 : Nat) < 0 + frames_offset
    simp [frames_offset]
  · intro st f e st' hP hstep
    rw [step_some_iff] at hstep
    obtain ⟨wc, hwc, rfl⟩ := hstep
    obtain ⟨h1, h2, h3⟩ := hP
    by_cases htick : st.frames = st.next_frame_request
    · refine ⟨?_, ?_, ?_⟩
      · rw [step_core_frames, step_core_next_of_tick st e wc htick]
        omega
      · rw [step_core_frames, step_core_next_of_tick st e wc htick]
        omega
      · rw [step_core_next_of_tick st e wc htick]
        exact Nat.dvd_add h3 (Nat.dvd_refl _)
    · refine ⟨?_, ?_, ?_⟩
      · rw [step_core_frames, step_core_next_of_no_tick st e wc htick]
        omega
      · rw [step_core_frames, step_core_next_of_no_tick st e wc htick]
        omega
      · rw [step_core_next_of_no_tick st e wc htick]
        exact h3

/-- Ledger invariant: a matched entry always carries a stats snapshot. -/
theorem reachable_matched_has_stats (st : MeasureState) (hr : Reachable st) :
    ∀ ent ∈ st.latency_results, ent.receive_timestamp ≠ 0 →
      ent.rtc_stats.isSome := by
  refine reachable_pres
    (fun s => ∀ ent ∈ s.latency_results, ent.receive_timestamp ≠ 0 →
      ent.rtc_stats.isSome) ?_ ?_ st hr
  · intro t0 ent hmem
    simp [measure_latency_init] at hmem
  · intro st f e st' hP hstep
    rw [step_some_iff] at hstep
    obtain ⟨wc, hwc, rfl⟩ := hstep
    have hmatch : ∀ ent ∈ (match_stage st e wc).latency_results,
        ent.receive_timestamp ≠ 0 → ent.rtc_stats.isSome := by
      unfold match_stage
      split
      · cases hl : st.latency_results.getLast? with
        | none =>
          rw [apply_match_of_empty st e hl]
          exact hP
        | some ent0 =>
          by_cases h0 : ent0.receive_timestamp = 0
          · rw [apply_match_of_pending st e ent0 hl h0]
            intro ent hmem hrt
            rcases List.mem_append.mp hmem with hm | hm
            · exact hP ent (List.mem_of_mem_dropLast hm) hrt
            · rw [List.mem_singleton.mp hm]
              rfl
          · rw [apply_match_of_matched st e ent0 hl h0]
            exact hP
      · exact hP
    by_cases htick : st.frames = st.next_frame_request
    · rw [step_core_results_of_tick st e wc htick]
      intro ent hmem hrt
      rcases List.mem_append.mp hmem with hm | hm
      · exact hmatch ent hm hrt
      · rw [List.mem_singleton.mp hm] at hrt
        exact absurd rfl hrt
    · rw [step_core_results_of_no_tick st e wc htick]
      exact hmatch

theorem row_of_pending (d : ℚ) (ent : LatencyEntry)
    (h0 : ent.receive_timestamp = 0) : row_of d ent = none := by
  rw [row_of, if_pos h0]

theorem row_of_matched (d : ℚ) (ent : LatencyEntry) (stats : LatencyStats)
    (h0 : ent.receive_timestamp ≠ 0) (hs : ent.rtc_stats = some stats) :
    row_of d ent = some (entry_row ent stats d) := by
  rw [row_of, if_neg h0, hs]

/-- On a ledger in which every matched entry carries a stats snapshot, the
report's row ids are exactly the matched entries' ids, in order. -/
theorem write_csv_ids (l : List LatencyEntry) (d : ℚ)
    (hstats : ∀ ent ∈ l, ent.receive_timestamp ≠ 0 → ent.rtc_stats.isSome) :
    (write_latency_to_csv l d).map (fun r => r.id) =
      (l.filter fun ent => ent.receive_timestamp != 0).map fun ent => ent.id := by
  induction l with
  | nil => rfl
  | cons ent rest ih =>
    have hrest : ∀ x ∈ rest, x.receive_timestamp ≠ 0 → x.rtc_stats.isSome :=
      fun x hx => hstats x (List.mem_cons_of_mem _ hx)
    by_cases h0 : ent.receive_timestamp = 0
    · rw [write_latency_to_csv, List.filterMap_cons, row_of_pending d ent h0,
        List.filter_cons_of_neg (by simp [h0])]
      exact ih hrest
    · obtain ⟨stats, hs⟩ := Option.isSome_iff_exists.mp
        (hstats ent (List.mem_cons_self _ _) h0)
      rw [write_latency_to_csv, List.filterMap_cons, row_of_matched d ent stats h0 hs,
        List.filter_cons_of_pos (by simp [h0]), List.map_cons, List.map_cons]
      exact congrArg (List.cons ent.id) (ih hrest)

theorem lt_length_of_getElem?_some {α : Type} {l : List α} {i : Nat} {a : α}
    (h : l[i]? = some a) : i < l.length := by
  by_contra hc
  rw [List.getElem?_eq_none (by omega)] at h
  exact Option.noConfusion h

theorem step_core_getElem?_of_lt (st : MeasureState) (e : StepEnv) (wc : Nat)
    (i : Nat) (hi : i < st.latency_results.length) :
    (step_core st e wc).latency_results[i]? =
      (match_stage st e wc).latency_results[i]? := by
  by_cases htick : st.frames = st.next_frame_request
  · rw [step_core_results_of_tick st e wc htick, List.getElem?_append,
      if_pos (by rw [match_stage_length]; exact hi)]
  · rw [step_core_results_of_no_tick st e wc htick]

theorem match_stage_getElem?_of_lt (st : MeasureState) (e : StepEnv) (wc : Nat)
    (i : Nat) (hi : i + 1 < st.latency_results.length) :
    (match_stage st e wc).latency_results[i]? = st.latency_results[i]? := by
  unfold match_stage
  split
  · exact apply_match_getElem?_of_lt st e i hi
  · rfl

theorem match_stage_getElem?_cases (st : MeasureState) (e : StepEnv) (wc : Nat)
    (i : Nat) (ent : LatencyEntry) (hent : st.latency_results[i]? = some ent) :
    (match_stage st e wc).latency_results[i]? = some ent ∨
    ((match_stage st e wc).latency_results[i]? =
        some (matched_entry st e ent) ∧ ent.receive_timestamp = 0) := by
  have hi : i < st.latency_results.length := lt_length_of_getElem?_some hent
  unfold match_stage
  split
  · cases hl : st.latency_results.getLast? with
    | none =>
      rw [apply_match_of_empty st e hl]
      exact Or.inl hent
    | some ent0 =>
      by_cases h0 : ent0.receive_timestamp = 0
      · by_cases hlast : i + 1 < st.latency_results.length
        · rw [apply_match_getElem?_of_lt st e i hlast]
          exact Or.inl hent
        · have hieq : i = st.latency_results.length - 1 := by omega
          have hent0 : ent0 = ent := by
            have : st.latency_results.getLast? = some ent := by
              rw [List.getLast?_eq_getElem?, ← hieq]
              exact hent
            exact Option.some.inj (hl ▸ this.symm).symm
          refine Or.inr ⟨?_, hent0 ▸ h0⟩
          rw [hieq]
          rw [apply_match_getElem?_last st e ent0 hl h0, hent0]
      · rw [apply_match_of_matched st e ent0 hl h0]
        exact Or.inl hent
  · exact Or.inl hent

theorem write_bytes_length (l : List Nat) (v n : Nat) :
    (write_bytes l v n).length = l.length := by
  simp only [write_bytes, List.length_append, List.length_map, List.length_take,
    List.length_drop]
  omega

theorem write_bytes_getElem?_lt (l : List Nat) (v n i : Nat) (hi : i < n)
    (hn : n ≤ l.length) : (write_bytes l v n)[i]? = some v := by
  rw [write_bytes, List.getElem?_append,
    if_pos (by simp only [List.length_map, List.length_take]; omega)]
  rw [List.getElem?_map, List.getElem?_take, if_pos hi,
    List.getElem?_eq_getElem (by omega)]
  rfl

theorem write_bytes_getElem?_ge (l : List Nat) (v n i : Nat) (hi : n ≤ i)
    (hn : n ≤ l.length) : (write_bytes l v n)[i]? = l[i]? := by
  rw [write_bytes, List.getElem?_append,
    if_neg (by simp only [List.length_map, List.length_take]; omega)]
  rw [List.getElem?_drop]
  congr 1
  simp only [List.length_map, List.length_take]
  omega

theorem step_core_start_time (st : MeasureState) (e : StepEnv) (wc : Nat) :
    (step_core st e wc).start_time = (match_stage st e wc).start_time := by
  by_cases htick : st.frames = st.next_frame_request
  · rw [step_core_of_tick st e wc htick]
    rfl
  · rw [step_core_of_no_tick st e wc htick]

theorem step_core_last_fps (st : MeasureState) (e : StepEnv) (wc : Nat) :
    (step_core st e wc).last_frame_for_fps =
      (match_stage st e wc).last_frame_for_fps := by
  by_cases htick : st.frames = st.next_frame_request
  · rw [step_core_of_tick st e wc htick]
    rfl
  · rw [step_core_of_no_tick st e wc htick]

theorem step_core_warnings (st : MeasureState) (e : StepEnv) (wc : Nat) :
    (step_core st e wc).warnings = (match_stage st e wc).warnings := by
  by_cases htick : st.frames = st.next_frame_request
  · rw [step_core_of_tick st e wc htick]
    rfl
  · rw [step_core_of_no_tick st e wc htick]

/-! The claims. -/

/-- C1: for every ledger at session end, the report contains exactly one
data row per matched entry — the row ids are exactly the ids of the entries
with `receive_timestamp ≠ 0`, in order, entries with `receive_timestamp = 0`
contribute no row, and the row count equals the matched-entry count. -/
theorem report_rows_are_matched (t0 : Nat) (inputs : List (InFrame × StepEnv))
    (st : MeasureState) (d : ℚ)
    (hrun : measure_latency_run t0 inputs = some st) :
    (write_latency_to_csv st.latency_results d).map (fun r => r.id) =
      (st.latency_results.filter fun ent =>
        ent.receive_timestamp != 0).map (fun ent => ent.id) ∧
    (write_latency_to_csv st.latency_results d).length =
      (st.latency_results.filter fun ent => ent.receive_timestamp != 0).length := by
  have hstats := reachable_matched_has_stats st ⟨t0, inputs, hrun⟩
  have hids := write_csv_ids st.latency_results d hstats
  refine ⟨hids, ?_⟩
  have hlen := congrArg List.length hids
  simpa [List.length_map] using hlen

/-- C3: during the warm-up (`frames ≤ 500`) no step changes any existing
ledger entry — even a fully marked frame — and any entry appended by the
trigger block is pending. -/
theorem warmup_blocks_match (st : MeasureState) (f : InFrame) (e : StepEnv)
    (st' : MeasureState) (hstep : measure_latency_step st f e = some st')
    (hwarm : st.frames ≤ start_sampling_frame) :
    ∃ tail, st'.latency_results = st.latency_results ++ tail ∧
      ∀ x ∈ tail, x.receive_timestamp = 0 := by
  rw [step_some_iff] at hstep
  obtain ⟨wc, hwc, rfl⟩ := hstep
  have hm := match_stage_of_warmup st e wc hwarm
  by_cases htick : st.frames = st.next_frame_request
  · refine ⟨[trigger_entry st e], ?_, ?_⟩
    · rw [step_core_results_of_tick st e wc htick, hm]
    · intro x hx
      rw [List.mem_singleton.mp hx]
      rfl
  · refine ⟨[], ?_, by simp⟩
    rw [step_core_results_of_no_tick st e wc htick, hm, List.append_nil]

/-- C4: a trigger message sets the Emitter's watermark budget to exactly 15,
overwriting the previous value; two consecutive triggers with no frame in
between still leave the budget at 15, not 30. -/
theorem trigger_overwrites_budget (count : Nat) :
    handle_room_event count (RoomEvent.dataReceived "watermark") = 15 ∧
    handle_room_event
      (handle_room_event count (RoomEvent.dataReceived "watermark"))
      (RoomEvent.dataReceived "watermark") = 15 := by
  constructor <;> simp [handle_room_event]

/-- C5: when the budget is positive, the frame callback overwrites exactly
the first `50 * s_y` luma bytes with the sentinel, leaves every other byte
(luma past the region, and the whole uv plane) unchanged, and decrements
the budget by exactly one; when the budget is zero the frame passes through
untouched and the budget stays zero. -/
theorem watermark_frame_effect (count sY : Nat) (y uv : List Nat)
    (hfit : marked_rows * sY ≤ y.length) :
    (0 < count →
      capture_mark_frame count sY y uv =
        (count - 1, write_bytes y watermark_byte (marked_rows * sY), uv) ∧
      (∀ i, i < marked_rows * sY →
        (write_bytes y watermark_byte (marked_rows * sY))[i]? =
          some watermark_byte) ∧
      (∀ i, marked_rows * sY ≤ i →
        (write_bytes y watermark_byte (marked_rows * sY))[i]? = y[i]?) ∧
      (write_bytes y watermark_byte (marked_rows * sY)).length = y.length) ∧
    (count = 0 → capture_mark_frame count sY y uv = (count, y, uv)) := by
  constructor
  · intro hc
    refine ⟨?_, ?_, ?_, write_bytes_length y watermark_byte (marked_rows * sY)⟩
    · rw [capture_mark_frame, if_pos hc]
    · intro i hi
      exact write_bytes_getElem?_lt y watermark_byte (marked_rows * sY) i hi hfit
    · intro i hi
      exact write_bytes_getElem?_ge y watermark_byte (marked_rows * sY) i hi hfit
  · intro hc
    rw [capture_mark_frame, if_neg (by omega)]

/-- C6: in one Receiver step, an already matched entry is never modified,
any entry other than the most recently opened one is never modified, and a
`receive_timestamp` that does change goes from 0 to the (nonzero) clock
value — so it is set at most once and only on the newest entry. -/
theorem receive_timestamp_set_once (st : MeasureState) (f : InFrame)
    (e : StepEnv) (st' : MeasureState)
    (hstep : measure_latency_step st f e = some st') (hnow : e.now_ms ≠ 0)
    (i : Nat) :
    (∀ ent, st.latency_results[i]? = some ent → ent.receive_timestamp ≠ 0 →
      st'.latency_results[i]? = some ent) ∧
    (i + 1 < st.latency_results.length →
      st'.latency_results[i]? = st.latency_results[i]?) ∧
    (∀ ent ent', st.latency_results[i]? = some ent →
      st'.latency_results[i]? = some ent' →
      ent'.receive_timestamp ≠ ent.receive_timestamp →
      ent.receive_timestamp = 0 ∧ ent'.receive_timestamp ≠ 0) := by
  rw [step_some_iff] at hstep
  obtain ⟨wc, hwc, rfl⟩ := hstep
  refine ⟨?_, ?_, ?_⟩
  · intro ent hent hrt
    have hi : i < st.latency_results.length := lt_length_of_getElem?_some hent
    rw [step_core_getElem?_of_lt st e wc i hi]
    rcases match_stage_getElem?_cases st e wc i ent hent with hcase | ⟨_, h0⟩
    · exact hcase
    · exact absurd h0 hrt
  · intro hi
    rw [step_core_getElem?_of_lt st e wc i (by omega)]
    exact match_stage_getElem?_of_lt st e wc i hi
  · intro ent ent' hent hent' hne
    have hi : i < st.latency_results.length := lt_length_of_getElem?_some hent
    rw [step_core_getElem?_of_lt st e wc i hi] at hent'
    rcases match_stage_getElem?_cases st e wc i ent hent with hcase | ⟨hcase, h0⟩
    · rw [hcase] at hent'
      rw [Option.some.inj hent'] at hne
      exact absurd rfl hne
    · rw [hcase] at hent'
      rw [← Option.some.inj hent']
      exact ⟨h0, hnow⟩

/-- C10: the sentinel detector indexes the first 200 luma bytes
unconditionally; on a plane of at least 200 samples the scan is total with
a count in `0..=200`, and on a shorter plane it panics (embedded as
`none`). -/
theorem sentinel_scan_total_or_panic (dataY : List Nat) :
    (200 ≤ dataY.length → ∃ c, countWatermark dataY = some c ∧ c ≤ 200) ∧
    (dataY.length < 200 → countWatermark dataY = none) := by
  constructor
  · intro h
    refine ⟨((dataY.take 200).filter fun b => b == watermark_byte).length,
      by rw [countWatermark, if_pos h], ?_⟩
    calc ((dataY.take 200).filter fun b => b == watermark_byte).length
        ≤ (dataY.take 200).length := List.length_filter_le _ _
      _ ≤ 200 := by
          simp only [List.length_take]
          omega
  · intro h
    rw [countWatermark, if_neg (by omega)]

/-- C2 (counterexample): the first trigger fires with the inbound-frame
counter at 0 — a multiple of 150 — yet the entry it opens has id 1, while
the claimed `counter / F` is `0 / 150 = 0`. -/
theorem trigger_id_off_by_one :
    (measure_latency_run 0 [({ dataY := plainY }, mkEnv 0)]).map
      (fun st => st.latency_results.map fun ent => ent.id) = some [1] ∧
    (0 : Nat) / frames_offset = 0 := by
  constructor
  · decide
  · rfl

/-- C2 (amended): whenever the running inbound-frame counter is a multiple
of F = 150, the step sends exactly one trigger and appends exactly one new
entry with `id = counter / F + 1`, `emitTimestamp = now` and
`receiveTimestamp = 0`, regardless of whether an earlier entry is still
pending. -/
theorem trigger_on_cadence (st : MeasureState) (f : InFrame) (e : StepEnv)
    (st' : MeasureState) (hr : Reachable st)
    (hstep : measure_latency_step st f e = some st')
    (hmul : st.frames % frames_offset = 0) :
    st'.triggers_sent = st.triggers_sent + 1 ∧
    st'.latency_results.length = st.latency_results.length + 1 ∧
    st'.latency_results.getLast? = some
      { id := st.frames / frames_offset + 1
        timestamp := e.trig_now_ms
        receive_timestamp := 0
        rtc_stats := none
        cpu_usage := 0 } := by
  obtain ⟨h1, h2, h3⟩ := reachable_tickInv st hr
  have htick : st.frames = st.next_frame_request := by
    obtain ⟨a, ha⟩ := h3
    obtain ⟨b, hb⟩ := Nat.dvd_of_mod_eq_zero hmul
    have h150 : frames_offset = 150 := rfl
    rw [h150] at ha hb h2
    omega
  rw [step_some_iff] at hstep
  obtain ⟨wc, hwc, rfl⟩ := hstep
  refine ⟨step_core_triggers_of_tick st e wc htick,
    step_core_length_of_tick st e wc htick, ?_⟩
  rw [step_core_getLast?_of_tick st e wc htick]
  unfold trigger_entry
  rw [← htick, Nat.add_div_right _ (by norm_num [frames_offset])]

/-- C8: on every match, the stored snapshot equals the transport snapshot
with `frames_per_second` replaced by the locally computed rate — frames
advanced since the last match divided by the elapsed whole seconds since
the last match — and the local rate counters are reset to the current frame
count and clock. -/
theorem local_fps_overrides_transport (st : MeasureState) (f : InFrame)
    (e : StepEnv) (st' : MeasureState) (wc : Nat) (ent : LatencyEntry)
    (hstep : measure_latency_step st f e = some st')
    (hwc : countWatermark f.dataY = some wc)
    (hthr : min_watermark_count ≤ wc)
    (hwarm : start_sampling_frame < st.frames)
    (hlast : st.latency_results.getLast? = some ent)
    (hpend : ent.receive_timestamp = 0) :
    (st'.latency_results[st.latency_results.length - 1]? =
      some (matched_entry st e ent) ∧
     (matched_entry st e ent).rtc_stats = some { e.rtcStats with
        frames_per_second :=
          ((st.frames - st.last_frame_for_fps : Nat) : ℚ) /
            ((e.now_secs - st.start_time : Nat) : ℚ) }) ∧
    st'.last_frame_for_fps = st.frames ∧
    st'.start_time = e.now_secs := by
  have hne : st.latency_results ≠ [] := by
    intro h0
    rw [h0] at hlast
    simp at hlast
  have hlen : 0 < st.latency_results.length := List.length_pos.mpr hne
  rw [step_some_iff] at hstep
  obtain ⟨wc', hwc', rfl⟩ := hstep
  obtain rfl : wc = wc' := by
    rw [hwc] at hwc'
    exact Option.some.inj hwc'
  have hms := match_stage_of_hit st e wc hthr hwarm
  refine ⟨⟨?_, rfl⟩, ?_, ?_⟩
  · rw [step_core_getElem?_of_lt st e wc _ (by omega), hms]
    exact apply_match_getElem?_last st e ent hlast hpend
  · rw [step_core_last_fps, hms, apply_match_of_pending st e ent hlast hpend]
  · rw [step_core_start_time, hms, apply_match_of_pending st e ent hlast hpend]

/-- C9: at match time with the pid lookup failing, the step still completes
(the loop continues), the entry is still matched — `receive_timestamp` set
to the clock, a stats snapshot stored — its `cpu_usage` keeps the sentinel
value 0, and exactly one warning is recorded. -/
theorem cpu_lookup_failure_nonfatal (st : MeasureState) (f : InFrame)
    (e : StepEnv) (wc : Nat) (ent : LatencyEntry)
    (hwc : countWatermark f.dataY = some wc)
    (hthr : min_watermark_count ≤ wc)
    (hwarm : start_sampling_frame < st.frames)
    (hlast : st.latency_results.getLast? = some ent)
    (hpend : ent.receive_timestamp = 0)
    (hcpu : ent.cpu_usage = 0)
    (hnone : e.cpuLookup = none) :
    ∃ st', measure_latency_step st f e = some st' ∧
      (∃ ent', st'.latency_results[st.latency_results.length - 1]? = some ent' ∧
        ent'.cpu_usage = 0 ∧ ent'.receive_timestamp = e.now_ms ∧
        ent'.rtc_stats.isSome) ∧
      st'.warnings = st.warnings + 1 := by
  have hne : st.latency_results ≠ [] := by
    intro h0
    rw [h0] at hlast
    simp at hlast
  have hlen : 0 < st.latency_results.length := List.length_pos.mpr hne
  have hms := match_stage_of_hit st e wc hthr hwarm
  refine ⟨step_core st e wc, ?_, ⟨matched_entry st e ent, ?_, ?_, rfl, rfl⟩, ?_⟩
  · rw [measure_latency_step, hwc]
    rfl
  · rw [step_core_getElem?_of_lt st e wc _ (by omega), hms]
    exact apply_match_getElem?_last st e ent hlast hpend
  · simp only [matched_entry, hnone]
    exact hcpu
  · rw [step_core_warnings, hms, apply_match_of_pending st e ent hlast hpend]
    show st.warnings + (match e.cpuLookup with
      | some _ => 0
      | none => 1) = st.warnings + 1
    rw [hnone]

/-! The C7 scenario: trigger cadence F = 150, watermark duration D = 15, a
stream of exactly 450 frames in which the 15 frames immediately following
each trigger (sent at frames 0, 150, 300) correctly carry the sentinel. -/

/-- One 150-frame block of the C7 stream: frame offsets 1..15 after the
block-initial trigger carry a fully marked luma plane; `base` is the global
index of the block's first frame, used only for the clock values. -/
def c7Block (base : Nat) : List (InFrame × StepEnv) :=
  (List.range 150).map fun k =>
    ({ dataY := if 1 ≤ k ∧ k ≤ 15 then markedY else plainY }, mkEnv (base + k))

/-- The full 450-frame C7 stream. -/
def c7Inputs : List (InFrame × StepEnv) :=
  c7Block 0 ++ c7Block 150 ++ c7Block 300

/-- A pending ledger entry with the given id and emit timestamp, as the
trigger block creates it. -/
def pending_entry (i ts : Nat) : LatencyEntry :=
  { id := i
    timestamp := ts
    receive_timestamp := 0
    rtc_stats := none
    cpu_usage := 0 }

/-- Receiver state after the first 150 frames of the C7 stream. -/
def c7s1 : MeasureState :=
  { latency_results := [pending_entry 1 1]
    frames := 150
    next_frame_request := 150
    start_time := 0
    last_frame_for_fps := 0
    triggers_sent := 1
    warnings := 0 }

/-- Receiver state after the first 300 frames of the C7 stream. -/
def c7s2 : MeasureState :=
  { latency_results := [pending_entry 1 1, pending_entry 2 151]
    frames := 300
    next_frame_request := 300
    start_time := 0
    last_frame_for_fps := 0
    triggers_sent := 2
    warnings := 0 }

/-- Receiver state after all 450 frames of the C7 stream. -/
def c7s3 : MeasureState :=
  { latency_results := [pending_entry 1 1, pending_entry 2 151, pending_entry 3 301]
    frames := 450
    next_frame_request := 450
    start_time := 0
    last_frame_for_fps := 0
    triggers_sent := 3
    warnings := 0 }

theorem c7_chunk1 :
    measure_fold (some (measure_latency_init 0)) (c7Block 0) = some c7s1 := by
  decide

theorem c7_chunk2 : measure_fold (some c7s1) (c7Block 150) = some c7s2 := by
  decide

theorem c7_chunk3 : measure_fold (some c7s2) (c7Block 300) = some c7s3 := by
  decide

theorem c7_run : measure_latency_run 0 c7Inputs = some c7s3 := by
  rw [measure_latency_run,
    show c7Inputs = c7Block 0 ++ c7Block 150 ++ c7Block 300 from rfl,
    measure_fold_append, measure_fold_append, c7_chunk1, c7_chunk2, c7_chunk3]

/-- C7 (counterexample): the 450-frame correctly-marked stream does not
yield report rows with ids 1, 2, 3 — the 500-frame warm-up suppresses every
match, so the report has no data rows at all. -/
theorem c7_450_frames_not_three_rows :
    c7Inputs.length = 450 ∧
    ¬ (measure_latency_run 0 c7Inputs).map
        (fun st => (write_latency_to_csv st.latency_results 0).map fun r => r.id)
      = some [1, 2, 3] := by
  constructor
  · decide
  · rw [c7_run]
    decide

/-- C7 (amended): with the warm-up W = 500 exceeding the stream length, the
450-frame correctly-marked stream opens exactly 3 entries with ids 1, 2, 3,
all of which stay pending, and the report has exactly 0 data rows. -/
theorem c7_450_frames_zero_rows :
    (measure_latency_run 0 c7Inputs).map
      (fun st => ((write_latency_to_csv st.latency_results 0).length,
        st.latency_results.map fun ent => (ent.id, ent.receive_timestamp))) =
      some (0, [(1, 0), (2, 0), (3, 0)]) := by
  rw [c7_run]
  decide

/-! Witnesses: each hypothesis-bearing claim theorem applied at a concrete
input. -/

/-- The Receiver state after one unmarked frame from the initial state:
the frame-0 trigger has opened entry 1. -/
def one_step_state : MeasureState :=
  { latency_results := [pending_entry 1 1]
    frames := 1
    next_frame_request := 150
    start_time := 0
    last_frame_for_fps := 0
    triggers_sent := 1
    warnings := 0 }

theorem report_rows_are_matched_witness :
    measure_latency_run 0 [({ dataY := plainY }, mkEnv 0)] = some one_step_state ∧
    ((write_latency_to_csv one_step_state.latency_results 0).map (fun r => r.id) =
      (one_step_state.latency_results.filter fun ent =>
        ent.receive_timestamp != 0).map (fun ent => ent.id) ∧
     (write_latency_to_csv one_step_state.latency_results 0).length =
      (one_step_state.latency_results.filter fun ent =>
        ent.receive_timestamp != 0).length) :=
  ⟨by decide, report_rows_are_matched 0 [({ dataY := plainY }, mkEnv 0)]
    one_step_state 0 (by decide)⟩

theorem trigger_on_cadence_witness :
    Reachable (measure_latency_init 0) ∧
    measure_latency_step (measure_latency_init 0) { dataY := plainY } (mkEnv 0) =
      some one_step_state ∧
    (measure_latency_init 0).frames % frames_offset = 0 ∧
    (one_step_state.triggers_sent = (measure_latency_init 0).triggers_sent + 1 ∧
     one_step_state.latency_results.length =
       (measure_latency_init 0).latency_results.length + 1 ∧
     one_step_state.latency_results.getLast? = some
       { id := (measure_latency_init 0).frames / frames_offset + 1
         timestamp := (mkEnv 0).trig_now_ms
         receive_timestamp := 0
         rtc_stats := none
         cpu_usage := 0 }) :=
  ⟨⟨0, [], rfl⟩, by decide, by decide,
    trigger_on_cadence (measure_latency_init 0) { dataY := plainY } (mkEnv 0)
      one_step_state ⟨0, [], rfl⟩ (by decide) (by decide)⟩

theorem warmup_blocks_match_witness :
    measure_latency_step (measure_latency_init 0) { dataY := markedY } (mkEnv 0) =
      some one_step_state ∧
    (measure_latency_init 0).frames ≤ start_sampling_frame ∧
    (∃ tail, one_step_state.latency_results =
        (measure_latency_init 0).latency_results ++ tail ∧
      ∀ x ∈ tail, x.receive_timestamp = 0) :=
  ⟨by decide, by decide,
    warmup_blocks_match (measure_latency_init 0) { dataY := markedY } (mkEnv 0)
      one_step_state (by decide) (by decide)⟩

theorem watermark_frame_effect_witness :
    marked_rows * 1 ≤ (List.replicate 60 7).length ∧
    capture_mark_frame 2 1 (List.replicate 60 7) [1, 2] =
      (2 - 1, write_bytes (List.replicate 60 7) watermark_byte (marked_rows * 1),
        [1, 2]) ∧
    (write_bytes (List.replicate 60 7) watermark_byte (marked_rows * 1)).length =
      (List.replicate 60 7).length ∧
    capture_mark_frame 0 1 (List.replicate 60 7) [1, 2] =
      (0, List.replicate 60 7, [1, 2]) :=
  ⟨by decide,
    ((watermark_frame_effect 2 1 (List.replicate 60 7) [1, 2] (by decide)).1
      (by decide)).1,
    (((watermark_frame_effect 2 1 (List.replicate 60 7) [1, 2] (by decide)).1
      (by decide)).2).2.2,
    (watermark_frame_effect 0 1 (List.replicate 60 7) [1, 2] (by decide)).2 rfl⟩

/-- A ledger entry that has already been matched (nonzero
`receive_timestamp`). -/
def w6_entry : LatencyEntry :=
  { id := 1
    timestamp := 5
    receive_timestamp := 7
    rtc_stats := none
    cpu_usage := 0 }

/-- A Receiver state holding one already-matched entry. -/
def w6State : MeasureState :=
  { latency_results := [w6_entry]
    frames := 10
    next_frame_request := 150
    start_time := 0
    last_frame_for_fps := 0
    triggers_sent := 1
    warnings := 0 }

/-- State `w6State` after one unmarked frame. -/
def w6State' : MeasureState :=
  { w6State with frames := 11 }

theorem receive_timestamp_set_once_witness :
    measure_latency_step w6State { dataY := plainY } (mkEnv 3) = some w6State' ∧
    (mkEnv 3).now_ms ≠ 0 ∧
    ((∀ ent, w6State.latency_results[0]? = some ent →
        ent.receive_timestamp ≠ 0 → w6State'.latency_results[0]? = some ent) ∧
     (0 + 1 < w6State.latency_results.length →
        w6State'.latency_results[0]? = w6State.latency_results[0]?) ∧
     (∀ ent ent', w6State.latency_results[0]? = some ent →
        w6State'.latency_results[0]? = some ent' →
        ent'.receive_timestamp ≠ ent.receive_timestamp →
        ent.receive_timestamp = 0 ∧ ent'.receive_timestamp ≠ 0)) :=
  ⟨by decide, by decide,
    receive_timestamp_set_once w6State { dataY := plainY } (mkEnv 3) w6State'
      (by decide) (by decide) 0⟩

/-- Ambient inputs for a match at frame 501: nonzero transport frame rate
(999) that the local rate must override, pid lookup succeeding. -/
def w8Env : StepEnv :=
  { now_ms := 14
    trig_now_ms := 14
    now_secs := 13
    rtcStats := { zeroStats with frames_per_second := 999 }
    cpuLookup := some 0 }

/-- A Receiver state past the warm-up with one pending entry. -/
def w8State : MeasureState :=
  { latency_results := [pending_entry 1 5]
    frames := 501
    next_frame_request := 600
    start_time := 3
    last_frame_for_fps := 400
    triggers_sent := 4
    warnings := 0 }

/-- State `w8State` after a fully marked frame under `w8Env`: the pending entry
is matched and the rate counters are reset. -/
def w8State' : MeasureState :=
  { latency_results := [matched_entry w8State w8Env (pending_entry 1 5)]
    frames := 502
    next_frame_request := 600
    start_time := 13
    last_frame_for_fps := 501
    triggers_sent := 4
    warnings := 0 }

theorem w8_step :
    measure_latency_step w8State { dataY := markedY } w8Env = some w8State' := by
  have hc : countWatermark markedY = some 200 := by decide
  show (countWatermark markedY).map (step_core w8State w8Env) = some w8State'
  rw [hc]
  show some (step_core w8State w8Env 200) = some w8State'
  rw [step_core_of_no_tick w8State w8Env 200 (by decide),
    match_stage_of_hit w8State w8Env 200 (by decide) (by decide),
    apply_match_of_pending w8State w8Env (pending_entry 1 5) rfl rfl]
  rfl

theorem local_fps_overrides_transport_witness :
    measure_latency_step w8State { dataY := markedY } w8Env = some w8State' ∧
    countWatermark markedY = some 200 ∧
    min_watermark_count ≤ 200 ∧
    start_sampling_frame < w8State.frames ∧
    w8State.latency_results.getLast? = some (pending_entry 1 5) ∧
    (pending_entry 1 5).receive_timestamp = 0 ∧
    ((w8State'.latency_results[w8State.latency_results.length - 1]? =
        some (matched_entry w8State w8Env (pending_entry 1 5)) ∧
      (matched_entry w8State w8Env (pending_entry 1 5)).rtc_stats =
        some { w8Env.rtcStats with frames_per_second :=
          ((w8State.frames - w8State.last_frame_for_fps : Nat) : ℚ) /
            ((w8Env.now_secs - w8State.start_time : Nat) : ℚ) }) ∧
     w8State'.last_frame_for_fps = w8State.frames ∧
     w8State'.start_time = w8Env.now_secs) :=
  ⟨w8_step, by decide, by decide, by decide, by decide, by decide,
    local_fps_overrides_transport w8State { dataY := markedY } w8Env w8State'
      200 (pending_entry 1 5) w8_step (by decide) (by decide) (by decide)
      (by decide) (by decide)⟩

/-- Same ambient inputs as `w8Env` but with the pid lookup failing. -/
def w9Env : StepEnv :=
  { w8Env with cpuLookup := none }

theorem cpu_lookup_failure_nonfatal_witness :
    countWatermark markedY = some 200 ∧
    min_watermark_count ≤ 200 ∧
    start_sampling_frame < w8State.frames ∧
    w8State.latency_results.getLast? = some (pending_entry 1 5) ∧
    (pending_entry 1 5).receive_timestamp = 0 ∧
    (pending_entry 1 5).cpu_usage = 0 ∧
    w9Env.cpuLookup = none ∧
    (∃ st', measure_latency_step w8State { dataY := markedY } w9Env = some st' ∧
      (∃ ent', st'.latency_results[w8State.latency_results.length - 1]? =
          some ent' ∧
        ent'.cpu_usage = 0 ∧ ent'.receive_timestamp = w9Env.now_ms ∧
        ent'.rtc_stats.isSome) ∧
      st'.warnings = w8State.warnings + 1) :=
  ⟨by decide, by decide, by decide, by decide, by decide, by decide, by decide,
    cpu_lookup_failure_nonfatal w8State { dataY := markedY } w9Env 200
      (pending_entry 1 5) (by decide) (by decide) (by decide) (by decide)
      (by decide) (by decide) (by decide)⟩

theorem sentinel_scan_total_or_panic_witness :
    (200 ≤ plainY.length ∧ ∃ c, countWatermark plainY = some c ∧ c ≤ 200) ∧
    (([1, 2, 3] : List Nat).length < 200 ∧ countWatermark [1, 2, 3] = none) :=
  ⟨⟨by decide, (sentinel_scan_total_or_panic plainY).1 (by decide)⟩,
   ⟨by decide, (sentinel_scan_total_or_panic [1, 2, 3]).2 (by decide)⟩⟩

end LivekitProbe
